import Mathlib

/-!
# Verification of the Kleptomove core (cine2 simulation + ann engine)

Shallow embedding of `src/cine/ann.hpp` and `src/cine/simulation.cpp`.
Numeric values are modelled by `ℚ` where the C++ code performs only
order-comparisons, additions, multiplications, `floor` and `min`
(exact on the small integral values the simulation maintains), and by
`ℝ` for the transcendental sigmoid activations.

Components of the repository that are referenced from `simulation.cpp`
but whose definitions are not part of the two source files
(`Individual::sprout/flee/pick_item/do_handle`, `Landscape::wrap`,
`Landscape::update_occupancy`, `AnyAnn::move/assign/mutate`) are
modelled from the spec; each such definition carries a doc comment
saying so.
-/

namespace Cine

/-! ## Activation functions (`ann.hpp`, namespace `activation`) -/

/-- An activation family: size of its extra-state region and the pure
transform `apply u ps` where `ps` is the pointer into the extra-state
sub-range (modelled as the suffix of the state list). Mirrors the
`extra_state<size>` base plus the static `apply` of `ann.hpp`. -/
structure Activation where
  value : ℕ
  apply : ℚ → List ℚ → ℚ

/-- Source `activation::zero` : `return T(0)`. -/
def act_zero : Activation := ⟨0, fun _ _ => 0⟩

/-- Source `activation::identity` : `return u`. -/
def act_identity : Activation := ⟨0, fun u _ => u⟩

/-- Source `activation::sgn::bipolar::apply` : `return u > T(0) ? T(-1) : T(1)`. -/
def sgn_bipolar (u : ℚ) : ℚ := if u > 0 then -1 else 1

/-- Source `activation::sgn::unipolar::apply` : `return u > T(0) ? T(0) : T(1)`. -/
def sgn_unipolar (u : ℚ) : ℚ := if u > 0 then 0 else 1

/-- Source `activation::sgn::bipolar` as an activation family (`extra_state<0>`). -/
def act_sgn_bipolar : Activation := ⟨0, fun u _ => sgn_bipolar u⟩

/-- Source `activation::sgn::unipolar` as an activation family (`extra_state<0>`). -/
def act_sgn_unipolar : Activation := ⟨0, fun u _ => sgn_unipolar u⟩

/-- Source `activation::rtlu` : `return std::max(T(0), u)`. -/
def act_rtlu : Activation := ⟨0, fun u _ => max 0 u⟩

/-! ## Feedback functions (`ann.hpp`, namespace `feedback`) -/

/-- A feedback family: parameter-region size, scratch-region size, and
`apply u ps scratch` receiving the parameter and scratch sub-ranges
(suffixes of the state list) and returning the stage output together
with the new contents of the scratch region (the C++ writes through
the scratch pointer; the returned list is the new contents of that region). -/
structure Feedback where
  value : ℕ
  scratch : ℕ
  apply : ℚ → List ℚ → List ℚ → ℚ × List ℚ

/-- Source `feedback::none` : `return u` — no parameters, no scratch, no write. -/
def fb_none : Feedback := ⟨0, 0, fun u _ _ => (u, [])⟩

/-- Source `feedback::direct` (`extra_state<1,1>`) :
`return scratch[0] = u + ps[0] * scratch[0]`. -/
def fb_direct : Feedback :=
  ⟨1, 1, fun u ps s =>
    let v := u + ps.getD 0 0 * s.getD 0 0
    (v, [v])⟩

/-! ## Neuron (`ann.hpp`, `template struct Neuron`) -/

/-- A neuron type: `(input count, activation, feedback, biased)` tuple,
mirroring the template parameters of `ann::Neuron`. -/
structure NeuronType where
  inputSize : ℕ
  act : Activation
  fb : Feedback
  biased : Bool

namespace NeuronType

/-- Source `input_weights = input_size + (biased ? 1 : 0)` -/
def inputWeights (nt : NeuronType) : ℕ :=
  nt.inputSize + (if nt.biased then 1 else 0)

/-- Source `activation_begin = input_weights` -/
def activationBegin (nt : NeuronType) : ℕ := nt.inputWeights

/-- Source `feedback_begin = activation_begin + activation_state` -/
def feedbackBegin (nt : NeuronType) : ℕ := nt.activationBegin + nt.act.value

/-- Source `feedback_scratch_begin = feedback_begin + feedback_state` -/
def feedbackScratchBegin (nt : NeuronType) : ℕ := nt.feedbackBegin + nt.fb.value

/-- Source `state_size = input_weights + activation_state + feedback_state + feedback_scratch` -/
def stateSize (nt : NeuronType) : ℕ := nt.feedbackScratchBegin + nt.fb.scratch

/-- The weighted-sum loop of `Neuron::feed`: biased version starts from
`u = state[0]` and accumulates `state[i] * in[i-1]` for `i = 1..input_size`;
unbiased version starts from `0` and accumulates `state[i] * in[i]`. -/
def weightedSum (nt : NeuronType) (input state : List ℚ) : ℚ :=
  if nt.biased then
    (List.range nt.inputSize).foldl
      (fun u i => u + state.getD (i + 1) 0 * input.getD i 0) (state.getD 0 0)
  else
    (List.range nt.inputSize).foldl
      (fun u i => u + state.getD i 0 * input.getD i 0) 0

/-- Source `Neuron::feed` : computes the weighted sum `u`, feeds it through
`feedback_t::apply(u, state + feedback_begin, state + feedback_scratch_begin)`,
then through `activation_t::apply(·, state + activation_begin)`.
Returns the scalar result together with the state after the feedback
stage wrote to the scratch region (the only region written). -/
def feed (nt : NeuronType) (input state : List ℚ) : ℚ × List ℚ :=
  let u := nt.weightedSum input state
  let r := nt.fb.apply u (state.drop nt.feedbackBegin) (state.drop nt.feedbackScratchBegin)
  (nt.act.apply r.1 (state.drop nt.activationBegin),
   state.take nt.feedbackScratchBegin ++ r.2
     ++ state.drop (nt.feedbackScratchBegin + nt.fb.scratch))

end NeuronType

/-! ## Fixed-slope sigmoid activations (`ann.hpp`, `activation::sig`)

Modelled over `ℝ` because they use `std::exp`. The slope parameter is
`n/d`, fixed at construction (template arguments `int n, int d`). -/

/-- A grid cell. -/
abbrev Pos := ℤ × ℤ

/-- Item initialization in `Simulation::Simulation` (lines 34–42):
`items[i] = floor(capacity[i] * param.landscape.max_item_cap)`. -/
def initItems (maxItemCap : ℚ) (capacity : Pos → ℚ) : Pos → ℚ :=
  fun p => (⌊capacity p * maxItemCap⌋ : ℚ)

/-- The per-cell item-growth update in `Simulation::simulate_timestep`
(lines 200–206): with probability `item_growth` (the Bernoulli draw is
passed in as `draw`),
`items[i] = std::min(floor(capacity[i] * max_item_cap), floor(items[i] + 1.0f))`;
otherwise the cell is untouched. -/
def growthCell (maxItemCap : ℚ) (capacity items : ℚ) (draw : Bool) : ℚ :=
  if draw then
    min (⌊capacity * maxItemCap⌋ : ℚ) (⌊items + 1⌋ : ℚ)
  else items

/-- The grass-growth loop over all cells (`simulate_timestep`, lines 200–206):
each cell is updated independently with its own Bernoulli draw. -/
def growthStep (maxItemCap : ℚ) (capacity items : Pos → ℚ) (draw : Pos → Bool) :
    Pos → ℚ :=
  fun p => growthCell maxItemCap (capacity p) (items p) (draw p)

/-! ## Agents (`Individual` of `individual.h`, used by `simulation.cpp`)

The `Individual` definition itself is not part of the two source
files; the fields below are the ones `simulation.cpp` reads and
writes (`pos`, `foraging`, `handling`, `handle_time`), plus the
ancestor index recorded by `sprout`. -/

/-- One simulated agent. -/
structure Individual where
  pos : Pos
  foraging : Bool
  handling : Bool
  handle_time : ℕ
  ancestor : ℕ
deriving DecidableEq, Inhabited

/-- Modelled from the spec: `Individual::pick_item` (missing from src/) —
the forager "picks one item, transitions to handling"; the fresh
handling countdown `tau` is a model parameter. -/
def pickItem (tau : ℕ) (a : Individual) : Individual :=
  { a with handling := true, handle_time := tau }

/-- Modelled from the spec: `Landscape::wrap` (missing from src/) —
coordinate "arithmetic wraps modulo `dim`" on the toroidal grid. -/
def wrapCoord (dim : ℕ) (p : Pos) : Pos :=
  (p.1 % (dim : ℤ), p.2 % (dim : ℤ))

/-- A raw random draw mapped into the closed range `[-r, r]`, modelling a
uniform integer distribution over that range (`uniform_int_distribution`
and `rndutils::uniform_signed_distribution` always produce a value inside
their range). -/
def offsetIn (r : ℕ) (raw : ℕ) : ℤ :=
  -(r : ℤ) + ((raw % (2 * r + 1) : ℕ) : ℤ)

/-- Modelled from the spec: `Individual::flee` (missing from src/) —
the loser of a fight "transitions to a `flee` state that relocates it to
a random cell within a bounded radius of its current position (wrapped
toroidally)"; since the attacker "inherits" the handling state, the
fleeing victim leaves it. `raw` is the pair of raw random draws for the
two axis offsets. -/
def flee (dim r : ℕ) (raw : ℕ × ℕ) (a : Individual) : Individual :=
  { a with
    pos := wrapCoord dim (a.pos + (offsetIn r raw.1, offsetIn r raw.2))
    handling := false }

/-- Modelled from the spec: `Individual::do_handle` (missing from src/) —
"handling carries a countdown timer": a handling agent counts its timer
down one step and leaves the handling state when it reaches zero. -/
def doHandle (a : Individual) : Individual :=
  if a.handling then
    let t := a.handle_time - 1
    { a with handle_time := t, handling := decide (0 < t) }
  else a

/-! ## Conflict resolution (`Simulation::resolve_grazing_and_attacks`) -/

/-- The grazing loop (lines 258–273): walks the population in order;
an agent that is not handling, is in the foraging posture, whose cell
holds at least one item and whose Bernoulli detection draw (probability
`1 - (1 - detection_rate)^items`, passed in as the stream `graze`)
succeeds picks an item and the item count of its cell goes down by one.
Later agents see the decremented counts (the layer is mutated in place). -/
def grazeGo (tau : ℕ) (graze : ℕ → Bool) :
    ℕ → List Individual → (Pos → ℚ) → List Individual × (Pos → ℚ)
  | _, [], items => ([], items)
  | k, a :: rest, items =>
    if a.handling = false ∧ a.foraging = true ∧ 1 ≤ items a.pos ∧ graze k = true then
      let r := grazeGo tau graze (k + 1) rest
        (Function.update items a.pos (items a.pos - 1))
      (pickItem tau a :: r.1, r.2)
    else
      let r := grazeGo tau graze (k + 1) rest items
      (a :: r.1, r.2)

/-- The grazing loop started at the head of the population. -/
def grazeStep (tau : ℕ) (graze : ℕ → Bool) (agents : List Individual)
    (items : Pos → ℚ) : List Individual × (Pos → ℚ) :=
  grazeGo tau graze 0 agents items

/-- Attacker collection (lines 275–284): indices of agents that are
neither handling nor foraging and whose cell has value at least 1 in
the smoothed handler-density layer (`handlers(pos) >= 1.0f`). -/
def collectAttackers (agents : List Individual) (handlers : Pos → ℚ) : List ℕ :=
  (List.range agents.length).filter fun i =>
    let a := agents.getD i default
    !a.handling && !a.foraging && decide (1 ≤ handlers a.pos)

/-- The potential-victim scan for one attacker `i` (lines 288–296):
every other agent on the same cell that is currently handling. -/
def potentialVictims (agents : List Individual) (i : ℕ) : List ℕ :=
  (List.range agents.length).filter fun j =>
    decide ((agents.getD j default).pos = (agents.getD i default).pos)
      && decide (j ≠ i) && (agents.getD j default).handling

/-- Victim selection (lines 286–305): for each attacker in turn, if its
potential-victim list is non-empty one victim is drawn uniformly at
random (draw `k` of the stream `pick`, reduced into range) and appended
to the attacked list; an attacker with no potential victim appends
nothing — and stays in the attacker list. -/
def selectVictims (pick : ℕ → ℕ) (agents : List Individual) :
    List ℕ → ℕ → List ℕ
  | [], _ => []
  | i :: rest, k =>
    let cs := potentialVictims agents i
    if cs.length = 0 then selectVictims pick agents rest k
    else cs.getD (pick k % cs.length) 0 :: selectVictims pick agents rest (k + 1)

/-- The conflict-pair vector (lines 308–311):
`conflicts_v[i] = { attacking_inds_[i], attacked_inds[i] }` for every
`i < attacking_inds_.size()`. The read of `attacked_inds[i]` is modelled
by `attacked[i]?`; a `none` entry records that the C++ read the vector
out of bounds there (undefined behavior). -/
def conflictPairs (attacking attacked : List ℕ) : List (ℕ × Option ℕ) :=
  (List.range attacking.length).map fun i => (attacking.getD i 0, attacked[i]?)

/-- The fight-resolution loop (lines 314–343): iterates `i` over
`attacking_inds_` in collection order. `prob_to_fight` is the literal
`1.0f` and the initiator-wins probability the literal `1.0`, so both
Bernoulli draws always succeed. If the victim `attacked_inds[i]` is
(still) handling, the attacker inherits its `handling` flag and
`handle_time`, and the victim flees. A `none` lookup is where the C++
indexes `attacked_inds` out of bounds; the model leaves the state
unchanged there. -/
def fightStep (dim fleeRadius : ℕ) (fleeRaw : ℕ → ℕ × ℕ)
    (agents : List Individual) (attacking attacked : List ℕ) : List Individual :=
  (List.range attacking.length).foldl
    (fun ag i =>
      match attacked[i]? with
      | none => ag
      | some j =>
        let v := ag.getD j default
        if v.handling then
          let atk := attacking.getD i 0
          let ag1 := ag.set atk
            { ag.getD atk default with handling := v.handling, handle_time := v.handle_time }
          ag1.set j (flee dim fleeRadius (fleeRaw i) (ag1.getD j default))
        else ag)
    agents

/-- The random streams consumed by `resolve_grazing_and_attacks`:
grazing detection draws, victim-selection draws, and the raw flee
offsets. -/
structure ResolveStreams where
  graze : ℕ → Bool
  pick : ℕ → ℕ
  fleeRaw : ℕ → ℕ × ℕ

/-- Source `Simulation::resolve_grazing_and_attacks` (lines 243–346): grazing,
attacker collection, victim selection, construction and shuffling of
`conflicts_v` (`σ` is the permutation `std::shuffle` applies), then the
fight loop. As in the source, the shuffled vector is never read again
(it is cleared at line 344): the fight loop runs over the unshuffled
`attacking_inds_` and `attacked_inds` arrays. Returns the new
population and the new item layer. -/
def resolveGrazingAndAttacks (tau dim fleeRadius : ℕ)
    (σ : List (ℕ × Option ℕ) → List (ℕ × Option ℕ)) (rs : ResolveStreams)
    (agents : List Individual) (items handlers : Pos → ℚ) :
    List Individual × (Pos → ℚ) :=
  let g := grazeStep tau rs.graze agents items
  let attacking := collectAttackers g.1 handlers
  let attacked := selectVictims rs.pick g.1 attacking 0
  let _shuffled := σ (conflictPairs attacking attacked)
  (fightStep dim fleeRadius rs.fleeRaw g.1 attacking attacked, g.2)

/-! ## The per-timestep phase sequence (`Simulation::simulate_timestep`) -/

/-- The mutable per-timestep simulation state: the population and the
landscape layers `simulate_timestep` touches (items, capacity, and the
smoothed handler-density layer consulted by conflict resolution). -/
structure SimState where
  agents : List Individual
  items : Pos → ℚ
  capacity : Pos → ℚ
  handlers : Pos → ℚ

/-- A smoothing kernel: a list of (offset, weight) pairs. -/
abbrev Kernel := List (Pos × ℚ)

/-- The raw handler-occupancy count of a cell: the number of handling
agents standing on it. -/
def rawHandlerCount (agents : List Individual) (p : Pos) : ℚ :=
  ((agents.filter fun a => a.handling && decide (a.pos = p)).length : ℚ)

/-- Modelled from the spec: the handler part of
`Landscape::update_occupancy` (missing from src/) — "for each agent,
increments the raw count layer for that agent's current behavioral
role at its cell; then convolves each raw count layer with a fixed
local kernel ... to produce the density layer agents perceive". -/
def smoothedHandlers (kern : Kernel) (agents : List Individual) (p : Pos) : ℚ :=
  (kern.map fun kw => kw.2 * rawHandlerCount agents (p - kw.1)).sum

/-- The occupancy-refresh phase: recomputes the smoothed handler layer
from the current population. -/
def updateOccupancyStep (kern : Kernel) (s : SimState) : SimState :=
  { s with handlers := smoothedHandlers kern s.agents }

/-- The growth phase of `simulate_timestep` (lines 200–206) applied to
the state. -/
def growthPhase (micap : ℚ) (gdraw : Pos → Bool) (s : SimState) : SimState :=
  { s with items := growthStep micap s.capacity s.items gdraw }

/-- The handling-countdown phase of `simulate_timestep` (lines 208–211):
`do_handle` on every agent. -/
def doHandlePhase (s : SimState) : SimState :=
  { s with agents := s.agents.map doHandle }

/-- The movement phase (line 216): `agents_.ann->move(...)` is not part
of the two source files; modelled from the spec — "movement via network
evaluation" updates the positions of the population and nothing else —
as an arbitrary function `mv` on the population. -/
def movePhase (mv : List Individual → List Individual) (s : SimState) : SimState :=
  { s with agents := mv s.agents }

/-- The conflict-resolution phase (line 223) applied to the state: uses
the item layer and the handler-density layer currently in the state. -/
def resolvePhase (tau dim fleeRadius : ℕ)
    (σ : List (ℕ × Option ℕ) → List (ℕ × Option ℕ)) (rs : ResolveStreams)
    (s : SimState) : SimState :=
  let r := resolveGrazingAndAttacks tau dim fleeRadius σ rs s.agents s.items s.handlers
  { s with agents := r.1, items := r.2 }

/-- The state `resolve_grazing_and_attacks` runs on: the prefix of
`simulate_timestep` up to and including the movement phase (lines
200–216) — growth, handling countdown, occupancy refresh, movement. -/
def preResolveState (micap : ℚ) (gdraw : Pos → Bool) (kern : Kernel)
    (mv : List Individual → List Individual) (s : SimState) : SimState :=
  movePhase mv (updateOccupancyStep kern (doHandlePhase (growthPhase micap gdraw s)))

/-- Source `Simulation::simulate_timestep` (lines 187–228): grass growth,
handling countdown, occupancy refresh, movement, conflict resolution,
occupancy refresh — in that order. -/
def simulateTimestep (micap : ℚ) (gdraw : Pos → Bool) (kern : Kernel)
    (mv : List Individual → List Individual) (tau dim fleeRadius : ℕ)
    (σ : List (ℕ × Option ℕ) → List (ℕ × Option ℕ)) (rs : ResolveStreams)
    (s : SimState) : SimState :=
  updateOccupancyStep kern
    (resolvePhase tau dim fleeRadius σ rs
      (preResolveState micap gdraw kern mv s))

/-! ## Generation replacement (`detail::create_new_generation`) -/

/-- The flat network state of one individual (`AnyAnn` stores one such
block per individual). -/
abbrev AnnState := List ℚ

/-- A `Population` (population.h, shape as used by `simulation.cpp`):
live agent array, staging agent array, live network collection, staging
network collection, per-agent fitness. The fitness-weighted sampling
distribution `rdist` is modelled by the ancestor stream passed to
`createNewGeneration`. -/
structure Population where
  pop : List Individual
  tmp_pop : List Individual
  ann : List AnnState
  tmp_ann : List AnnState
  fitness : List ℚ

/-- Modelled from the spec: `Individual::sprout` (missing from src/) —
"place the offspring at" the given position; the offspring starts
fresh (not handling, not foraging, no countdown) and records its
ancestor index. -/
def sprout (p : Pos) (anc : ℕ) : Individual :=
  ⟨p, false, false, 0, anc⟩

/-- The reproduction loop of `detail::create_new_generation` (lines
105–118): for every offspring slot `i`, draw one ancestor from the
fitness-weighted distribution (`anc i`, reduced into range as the
distribution always yields a valid index), place the offspring at the
wrapped perturbed position, and copy the ancestor network state into
staging slot `i`. All writes land in `tmp_pop` and `tmp_ann`. -/
def fillStage (dim sproutRadius : ℕ) (anc : ℕ → ℕ) (offRaw : ℕ → ℕ × ℕ)
    (P : Population) : Population :=
  let N := P.pop.length
  { P with
    tmp_pop := (List.range N).map fun i =>
      let a := anc i % N
      sprout
        (wrapCoord dim ((P.pop.getD a default).pos +
          (offsetIn sproutRadius (offRaw i).1, offsetIn sproutRadius (offRaw i).2)))
        a
    tmp_ann := (List.range N).map fun i => P.ann.getD (anc i % N) [] }

/-- The mutation step (line 119): `population.tmp_ann->mutate(iparam, fixed)`
perturbs the staging network collection in place. `AnyAnn::mutate` is not
part of the two source files; it is modelled as an arbitrary function
`mutF` on the staging collection. -/
def mutateStage (mutF : List AnnState → List AnnState) (P : Population) : Population :=
  { P with tmp_ann := mutF P.tmp_ann }

/-- The final buffer swap (lines 121–123): `swap(pop, tmp_pop)` and
`swap(ann, tmp_ann)` exchange live and staging arrays wholesale. -/
def swapStage (P : Population) : Population :=
  { P with pop := P.tmp_pop, tmp_pop := P.pop, ann := P.tmp_ann, tmp_ann := P.ann }

/-- Source `detail::create_new_generation` (lines 97–124): fill the staging
arrays, mutate the staging networks, then swap. -/
def createNewGeneration (dim sproutRadius : ℕ) (anc : ℕ → ℕ)
    (offRaw : ℕ → ℕ × ℕ) (mutF : List AnnState → List AnnState)
    (P : Population) : Population :=
  swapStage (mutateStage mutF (fillStage dim sproutRadius anc offRaw P))

/-! ## Concrete instances used by witnesses and counterexamples -/

/-- A constant capacity layer of value 5. -/
def capFive : Pos → ℚ := fun _ => 5

/-- A constant item layer of value 2. -/
def itemsTwo : Pos → ℚ := fun _ => 2

/-- Growth draw succeeding at every cell. -/
def drawAll : Pos → Bool := fun _ => true

/-- Grazing detection draw succeeding for every agent. -/
def grazeAll : ℕ → Bool := fun _ => true

/-- A single foraging agent at the origin. -/
def oneForager : List Individual := [⟨(0, 0), true, false, 0, 0⟩]

/-- Three agents: two would-be attackers (neither handling nor
foraging) at `(0,0)` and `(1,0)`, and one handling agent at `(1,0)`.
The attacker at `(0,0)` has no co-located handling agent. -/
def strandedAttackers : List Individual :=
  [⟨(0, 0), false, false, 0, 0⟩, ⟨(1, 0), false, false, 0, 0⟩, ⟨(1, 0), false, true, 5, 0⟩]

/-- A handler-density layer holding 1 at `(0,0)` and `(1,0)`: such
values arise because the layer is computed before the movement phase
and is kernel-smoothed, so a cell can read `>= 1` without a handling
agent standing on it at resolution time. -/
def staleHandlers : Pos → ℚ := fun p => if p = (0, 0) ∨ p = (1, 0) then 1 else 0

/-- Three agents on one cell: two attackers and one handling victim. -/
def sharedVictimAgents : List Individual :=
  [⟨(0, 0), false, false, 0, 0⟩, ⟨(0, 0), false, false, 0, 0⟩, ⟨(0, 0), false, true, 5, 0⟩]

/-- A handler-density layer holding 1 at the origin. -/
def originHandlers : Pos → ℚ := fun p => if p = (0, 0) then 1 else 0

/-- Trivial random streams for conflict resolution. -/
def noStreams : ResolveStreams := ⟨fun _ => false, fun _ => 0, fun _ => (0, 0)⟩

/-- A state with a single handling agent at the origin and empty layers. -/
def singleHandlerState : SimState :=
  { agents := [⟨(0, 0), false, true, 5, 0⟩]
    items := fun _ => 0
    capacity := fun _ => 0
    handlers := fun _ => 0 }

/-- A movement function that shifts every agent by `(1, 1)`. -/
def shiftMove : List Individual → List Individual :=
  fun l => l.map fun a => { a with pos := (a.pos.1 + 1, a.pos.2 + 1) }

/-- The identity smoothing kernel. -/
def identityKernel : Kernel := [((0, 0), 1)]

/-- Growth draw failing at every cell. -/
def noDraw : Pos → Bool := fun _ => false

/-- A one-individual population for the reproduction witness. -/
def onePop : Population :=
  ⟨[⟨(0, 0), false, false, 0, 0⟩], [], [[1]], [], [1]⟩

/-! ## Theorems -/

/-- Helper: a left fold accumulating additions over `List.range` is the
starting value plus the corresponding finite sum. -/
theorem foldl_add_eq_sum (f : ℕ → ℚ) (b : ℚ) (n : ℕ) :
    (List.range n).foldl (fun u i => u + f i) b = b + ∑ i ∈ Finset.range n, f i := by
  induction n with
  | zero => simp
  | succ n ih =>
    rw [List.range_succ, List.foldl_append]
    simp [ih, Finset.sum_range_succ, add_assoc]

/-- Claim C4, counterexample: The claim says the bipolar hard-limit
activation returns `+1` for positive input and the unipolar one returns
`1` for positive input; at `u = 1` the code returns `-1` and `0`
respectively (`u > T(0) ? T(-1) : T(1)` and `u > T(0) ? T(0) : T(1)`). -/
theorem sgn_claim_counterexample :
    sgn_bipolar 1 = -1 ∧ sgn_bipolar 1 ≠ 1 ∧ sgn_unipolar 1 = 0 ∧ sgn_unipolar 1 ≠ 1 := by
  refine ⟨?_, ?_, ?_, ?_⟩ <;> norm_num [sgn_bipolar, sgn_unipolar]

/-- Claim C4, amended: The hard-limit activations are the *reversed* step
of the sign of the net input: for every input `u` the bipolar variant
returns `-1` when `u > 0` and `+1` otherwise, the unipolar variant
returns `0` when `u > 0` and `1` otherwise; both are pure functions of
`u` alone (the extra-state argument is ignored and its declared size is
zero). -/
theorem sgn_step_amended (u : ℚ) (ps₁ ps₂ : List ℚ) :
    act_sgn_bipolar.apply u ps₁ = (if 0 < u then -1 else 1)
    ∧ act_sgn_unipolar.apply u ps₂ = (if 0 < u then 0 else 1)
    ∧ act_sgn_bipolar.apply u ps₁ = act_sgn_bipolar.apply u ps₂
    ∧ act_sgn_unipolar.apply u ps₁ = act_sgn_unipolar.apply u ps₂
    ∧ act_sgn_bipolar.value = 0 ∧ act_sgn_unipolar.value = 0 := by
  refine ⟨rfl, rfl, rfl, rfl, rfl, rfl⟩

/-- Claim C6: `Neuron::feed` computes the weighted sum
`u = bias + Σ weight_i * input_i` (the bias weight `state[0]` present
exactly when the neuron is biased), passes it through the feedback
function applied to the feedback-parameter sub-range (at offset
`input_weights + activation_state`) and the feedback-scratch sub-range
(at offset `input_weights + activation_state + feedback_state`), then
through the activation function applied to the activation extra-parameter
sub-range (at offset `input_weights`), and returns the activation result. -/
theorem neuron_feed_pipeline (nt : NeuronType) (input state : List ℚ) :
    (nt.feed input state).1 =
      nt.act.apply
        (nt.fb.apply
          (if nt.biased then
            state.getD 0 0 +
              ∑ i ∈ Finset.range nt.inputSize, state.getD (i + 1) 0 * input.getD i 0
          else
            ∑ i ∈ Finset.range nt.inputSize, state.getD i 0 * input.getD i 0)
          (state.drop (nt.inputWeights + nt.act.value))
          (state.drop (nt.inputWeights + nt.act.value + nt.fb.value))).1
        (state.drop nt.inputWeights) := by
  unfold NeuronType.feed NeuronType.weightedSum
  by_cases hb : nt.biased <;>
    simp [hb, foldl_add_eq_sum, NeuronType.feedbackBegin, NeuronType.feedbackScratchBegin,
      NeuronType.activationBegin]

/-- Claim C7: With `direct` feedback the feedback stage outputs
`u + gain × previous_output` (gain read from the one-element parameter
region, previous output from the one-element scratch region) and the
scratch cell is overwritten with the new output; with `none` feedback
the stage is the identity and the state is left untouched, so a second
call on the returned state reproduces the first call exactly, for any
activation. -/
theorem feedback_direct_and_none (nt₁ nt₂ : NeuronType)
    (input₁ state₁ input₂ state₂ : List ℚ)
    (h₁ : nt₁.fb = fb_direct) (h₂ : nt₂.fb = fb_none)
    (hlen : nt₁.feedbackScratchBegin < state₁.length) :
    ((nt₁.feed input₁ state₁).1 =
        nt₁.act.apply
          (nt₁.weightedSum input₁ state₁ +
            state₁.getD nt₁.feedbackBegin 0 * state₁.getD nt₁.feedbackScratchBegin 0)
          (state₁.drop nt₁.activationBegin)
      ∧ (nt₁.feed input₁ state₁).2 =
          state₁.set nt₁.feedbackScratchBegin
            (nt₁.weightedSum input₁ state₁ +
              state₁.getD nt₁.feedbackBegin 0 * state₁.getD nt₁.feedbackScratchBegin 0))
    ∧ ((nt₂.feed input₂ state₂).1 =
          nt₂.act.apply (nt₂.weightedSum input₂ state₂) (state₂.drop nt₂.activationBegin)
      ∧ (nt₂.feed input₂ state₂).2 = state₂
      ∧ nt₂.feed input₂ ((nt₂.feed input₂ state₂).2) = nt₂.feed input₂ state₂) := by
  have hgd : ∀ (l : List ℚ) (k : ℕ), (l.drop k).getD 0 0 = l.getD k 0 := by
    intro l k
    simp [List.getD_eq_getElem?_getD, List.getElem?_drop]
  constructor
  · constructor
    · simp [NeuronType.feed, h₁, fb_direct, hgd]
    · rw [List.set_eq_take_cons_drop _ hlen]
      simp [NeuronType.feed, h₁, fb_direct, hgd]
  · refine ⟨?_, ?_, ?_⟩
    · simp [NeuronType.feed, h₂, fb_none]
    · simp [NeuronType.feed, h₂, fb_none]
    · have hst : (nt₂.feed input₂ state₂).2 = state₂ := by
        simp [NeuronType.feed, h₂, fb_none]
      rw [hst]

/-- Claim C7, witness: A concrete one-input biased neuron with identity
activation: direct feedback at state `[2, 3, 5, 7]` and input `[1]`
(bias 2, weight 3, gain 5, previous output 7), and no feedback at state
`[2, 3]`. -/
theorem feedback_direct_and_none_witness :
    (⟨1, act_identity, fb_direct, true⟩ : NeuronType).fb = fb_direct
    ∧ (⟨1, act_identity, fb_none, true⟩ : NeuronType).fb = fb_none
    ∧ (⟨1, act_identity, fb_direct, true⟩ : NeuronType).feedbackScratchBegin < 4
    ∧ (((⟨1, act_identity, fb_direct, true⟩ : NeuronType).feed [1] [2, 3, 5, 7]).1 =
        (⟨1, act_identity, fb_direct, true⟩ : NeuronType).act.apply
          ((⟨1, act_identity, fb_direct, true⟩ : NeuronType).weightedSum [1] [2, 3, 5, 7] +
            ([2, 3, 5, 7] : List ℚ).getD
              (⟨1, act_identity, fb_direct, true⟩ : NeuronType).feedbackBegin 0 *
            ([2, 3, 5, 7] : List ℚ).getD
              (⟨1, act_identity, fb_direct, true⟩ : NeuronType).feedbackScratchBegin 0)
          (([2, 3, 5, 7] : List ℚ).drop
            (⟨1, act_identity, fb_direct, true⟩ : NeuronType).activationBegin)
      ∧ ((⟨1, act_identity, fb_direct, true⟩ : NeuronType).feed [1] [2, 3, 5, 7]).2 =
          ([2, 3, 5, 7] : List ℚ).set
            (⟨1, act_identity, fb_direct, true⟩ : NeuronType).feedbackScratchBegin
            ((⟨1, act_identity, fb_direct, true⟩ : NeuronType).weightedSum [1] [2, 3, 5, 7] +
              ([2, 3, 5, 7] : List ℚ).getD
                (⟨1, act_identity, fb_direct, true⟩ : NeuronType).feedbackBegin 0 *
              ([2, 3, 5, 7] : List ℚ).getD
                (⟨1, act_identity, fb_direct, true⟩ : NeuronType).feedbackScratchBegin 0))
    ∧ (((⟨1, act_identity, fb_none, true⟩ : NeuronType).feed [1] [2, 3]).1 =
          (⟨1, act_identity, fb_none, true⟩ : NeuronType).act.apply
            ((⟨1, act_identity, fb_none, true⟩ : NeuronType).weightedSum [1] [2, 3])
            (([2, 3] : List ℚ).drop
              (⟨1, act_identity, fb_none, true⟩ : NeuronType).activationBegin)
      ∧ (((⟨1, act_identity, fb_none, true⟩ : NeuronType).feed [1] [2, 3]).2 = [2, 3])
      ∧ (⟨1, act_identity, fb_none, true⟩ : NeuronType).feed [1]
          (((⟨1, act_identity, fb_none, true⟩ : NeuronType).feed [1] [2, 3]).2) =
          (⟨1, act_identity, fb_none, true⟩ : NeuronType).feed [1] [2, 3]) :=
  ⟨rfl, rfl, by decide,
    feedback_direct_and_none ⟨1, act_identity, fb_direct, true⟩
      ⟨1, act_identity, fb_none, true⟩ [1] [2, 3, 5, 7] [1] [2, 3] rfl rfl (by decide)⟩

/-- Helper: the grazing loop preserves any per-cell bound `0 ≤ · ≤ B`:
the only write it performs on the item layer is a decrement of a cell
guarded by that cell holding at least one item. -/
theorem grazeGo_preserves (tau : ℕ) (graze : ℕ → Bool) (B : Pos → ℚ) :
    ∀ (agents : List Individual) (k : ℕ) (items : Pos → ℚ),
      (∀ p, 0 ≤ items p ∧ items p ≤ B p) →
      ∀ p, 0 ≤ (grazeGo tau graze k agents items).2 p
        ∧ (grazeGo tau graze k agents items).2 p ≤ B p := by
  intro agents
  induction agents with
  | nil =>
    intro k items h p
    simpa [grazeGo] using h p
  | cons a rest ih =>
    intro k items h p
    by_cases hc : a.handling = false ∧ a.foraging = true ∧ 1 ≤ items a.pos ∧ graze k = true
    · simp only [grazeGo, if_pos hc]
      apply ih
      intro q
      by_cases hq : q = a.pos
      · subst hq
        obtain ⟨-, -, h1, -⟩ := hc
        obtain ⟨-, h2⟩ := h a.pos
        simp only [Function.update_same]
        exact ⟨by linarith, by linarith⟩
      · simpa [Function.update, hq] using h q
    · simp only [grazeGo, if_neg hc]
      exact ih (k + 1) items h p

/-- Claim C5: Per-cell item bounds: starting from any item layer within
`[0, floor(capacity × max_item_cap)]`, the growth step keeps every cell
within the bound and adds at most one item to a cell, and the grazing
(foraging) loop — which decrements a cell only under the guard
`items(pos) >= 1` — keeps every cell within the bound as well. -/
theorem item_count_invariant (micap : ℚ) (cap items : Pos → ℚ) (gdraw : Pos → Bool)
    (tau : ℕ) (graze : ℕ → Bool) (agents : List Individual)
    (h : ∀ p, 0 ≤ items p ∧ items p ≤ (⌊cap p * micap⌋ : ℚ)) :
    (∀ p, 0 ≤ growthStep micap cap items gdraw p
      ∧ growthStep micap cap items gdraw p ≤ (⌊cap p * micap⌋ : ℚ)
      ∧ growthStep micap cap items gdraw p ≤ items p + 1)
    ∧ (∀ p, 0 ≤ (grazeStep tau graze agents items).2 p
      ∧ (grazeStep tau graze agents items).2 p ≤ (⌊cap p * micap⌋ : ℚ)) := by
  constructor
  · intro p
    obtain ⟨h0, h1⟩ := h p
    unfold growthStep growthCell
    by_cases hd : gdraw p = true
    · have hfl : (0 : ℚ) ≤ (⌊items p + 1⌋ : ℤ) := by
        exact_mod_cast Int.le_floor.mpr (by push_cast; linarith)
      have hfl2 : ((⌊items p + 1⌋ : ℤ) : ℚ) ≤ items p + 1 := Int.floor_le _
      rw [if_pos hd]
      refine ⟨le_min (by linarith) hfl, min_le_left _ _, le_trans (min_le_right _ _) hfl2⟩
    · rw [if_neg hd]
      exact ⟨h0, h1, by linarith⟩
  · exact grazeGo_preserves tau graze (fun p => (⌊cap p * micap⌋ : ℚ)) agents 0 items h

/-- Claim C5, witness: Capacity 5, `max_item_cap = 1/2` (so the bound is
`⌊5/2⌋ = 2`), item count 2 at every cell, one foraging agent, all draws
succeeding. -/
theorem item_count_invariant_witness :
    (∀ p, 0 ≤ itemsTwo p ∧ itemsTwo p ≤ (⌊capFive p * (1/2 : ℚ)⌋ : ℚ))
    ∧ ((∀ p, 0 ≤ growthStep (1/2) capFive itemsTwo drawAll p
        ∧ growthStep (1/2) capFive itemsTwo drawAll p ≤ (⌊capFive p * (1/2 : ℚ)⌋ : ℚ)
        ∧ growthStep (1/2) capFive itemsTwo drawAll p ≤ itemsTwo p + 1)
      ∧ (∀ p, 0 ≤ (grazeStep 3 grazeAll oneForager itemsTwo).2 p
        ∧ (grazeStep 3 grazeAll oneForager itemsTwo).2 p ≤ (⌊capFive p * (1/2 : ℚ)⌋ : ℚ))) := by
  have hHyp : ∀ p, 0 ≤ itemsTwo p ∧ itemsTwo p ≤ (⌊capFive p * (1/2 : ℚ)⌋ : ℚ) := by
    intro p
    constructor <;> norm_num [itemsTwo, capFive]
  exact ⟨hHyp, item_count_invariant (1/2) capFive itemsTwo drawAll 3 grazeAll oneForager hHyp⟩

/-- Claim C10: At construction every cell of the item layer is set to
exactly `floor(capacity × max_item_cap)`, and (for non-negative
capacity and cap parameter) this initial value already satisfies the
per-cell item-count bound `[0, floor(capacity × max_item_cap)]`. -/
theorem init_items_full_cover (micap : ℚ) (cap : Pos → ℚ) (hm : 0 ≤ micap)
    (hc : ∀ p, 0 ≤ cap p) :
    ∀ p, initItems micap cap p = (⌊cap p * micap⌋ : ℚ)
      ∧ 0 ≤ initItems micap cap p
      ∧ initItems micap cap p ≤ (⌊cap p * micap⌋ : ℚ) := by
  intro p
  refine ⟨rfl, ?_, le_refl _⟩
  unfold initItems
  have hz : (0 : ℤ) ≤ ⌊cap p * micap⌋ :=
    Int.le_floor.mpr (by simpa using mul_nonneg (hc p) hm)
  exact_mod_cast hz

/-- Claim C10, witness: Capacity 5 and `max_item_cap = 1/2` are
non-negative, and the initialization facts hold for them. -/
theorem init_items_full_cover_witness :
    (0 : ℚ) ≤ 1/2 ∧ (∀ p, 0 ≤ capFive p)
    ∧ (∀ p, initItems (1/2) capFive p = (⌊capFive p * (1/2 : ℚ)⌋ : ℚ)
      ∧ 0 ≤ initItems (1/2) capFive p
      ∧ initItems (1/2) capFive p ≤ (⌊capFive p * (1/2 : ℚ)⌋ : ℚ)) := by
  have hc : ∀ p, 0 ≤ capFive p := by intro p; norm_num [capFive]
  exact ⟨by norm_num, hc, init_items_full_cover (1/2) capFive (by norm_num) hc⟩

/-- Claim C1, code bug: On `strandedAttackers` with the stale smoothed
handler layer, two attackers are collected but only one victim is
selected: the attacked list has fewer entries than the attacker list
(not one per attacker), the conflict-pair construction pairs attacker 0
with a victim standing on a different cell, and its read for attacker 1
is past the end of the attacked list (`none` marks the out-of-bounds
vector access the C++ performs). -/
theorem victim_list_misalignment :
    collectAttackers strandedAttackers staleHandlers = [0, 1]
    ∧ potentialVictims strandedAttackers 0 = []
    ∧ selectVictims (fun _ => 0) strandedAttackers
        (collectAttackers strandedAttackers staleHandlers) 0 = [2]
    ∧ (selectVictims (fun _ => 0) strandedAttackers
        (collectAttackers strandedAttackers staleHandlers) 0).length
      < (collectAttackers strandedAttackers staleHandlers).length
    ∧ conflictPairs (collectAttackers strandedAttackers staleHandlers)
        (selectVictims (fun _ => 0) strandedAttackers
          (collectAttackers strandedAttackers staleHandlers) 0)
      = [(0, some 2), (1, none)]
    ∧ (strandedAttackers.getD 2 default).pos ≠ (strandedAttackers.getD 0 default).pos := by
  decide

/-- Claim C2, code bug: The shuffled copy of the conflict pairs is never
consulted: the result of `resolve_grazing_and_attacks` is the same for
every permutation `σ` applied by `std::shuffle`. Fight resolution walks
`attacking_inds_`/`attacked_inds` in collection order, and on two
attackers sharing one victim the outcome depends on that order:
whichever attacker is processed first takes the victim, so reversing
the collected order yields a different final population. -/
theorem shuffle_unused_order_dependent :
    (∀ σ : List (ℕ × Option ℕ) → List (ℕ × Option ℕ),
      resolveGrazingAndAttacks 5 8 2 σ noStreams sharedVictimAgents itemsTwo originHandlers
        = resolveGrazingAndAttacks 5 8 2 (fun l => l) noStreams sharedVictimAgents itemsTwo
            originHandlers)
    ∧ collectAttackers sharedVictimAgents originHandlers = [0, 1]
    ∧ selectVictims (fun _ => 0) sharedVictimAgents [0, 1] 0 = [2, 2]
    ∧ fightStep 8 2 (fun _ => (0, 0)) sharedVictimAgents [0, 1] [2, 2]
      ≠ fightStep 8 2 (fun _ => (0, 0)) sharedVictimAgents [1, 0] [2, 2] := by
  refine ⟨fun σ => rfl, by decide, by decide, by decide⟩

/-- Claim C3, counterexample: In `simulate_timestep` the occupancy
refresh runs *before* the movement phase, so the handler layer that
conflict resolution reads does not reflect post-movement positions:
with a single handling agent that moves from `(0,0)` to `(1,1)`, the
layer at resolve entry still holds 1 at `(0,0)` while the smoothed
occupancy of the post-movement population there is 0. -/
theorem resolve_sees_premove_occupancy :
    (preResolveState 1 noDraw identityKernel shiftMove singleHandlerState).handlers (0, 0) = 1
    ∧ smoothedHandlers identityKernel
        (preResolveState 1 noDraw identityKernel shiftMove singleHandlerState).agents (0, 0) = 0
    ∧ (preResolveState 1 noDraw identityKernel shiftMove singleHandlerState).handlers (0, 0)
      ≠ smoothedHandlers identityKernel
          (preResolveState 1 noDraw identityKernel shiftMove singleHandlerState).agents (0, 0) := by
  have h1 : (preResolveState 1 noDraw identityKernel shiftMove singleHandlerState).handlers (0, 0)
      = 1 := by
    simp [preResolveState, movePhase, updateOccupancyStep, doHandlePhase, growthPhase,
      smoothedHandlers, rawHandlerCount, identityKernel, singleHandlerState, doHandle,
      List.filter]
  have h2 : smoothedHandlers identityKernel
      (preResolveState 1 noDraw identityKernel shiftMove singleHandlerState).agents (0, 0)
      = 0 := by
    simp [preResolveState, movePhase, updateOccupancyStep, doHandlePhase, growthPhase,
      smoothedHandlers, rawHandlerCount, identityKernel, shiftMove, singleHandlerState,
      doHandle, List.filter]
  exact ⟨h1, h2, by rw [h1, h2]; norm_num⟩

/-- Claim C3, amended: Within a timestep the occupancy layers are
recomputed *before* the movement phase (right after the
handling-countdown phase) and again after conflict resolution: the
handler layer consulted during conflict resolution is the smoothed
occupancy of the *pre-movement* population, and the layer left at the
end of the timestep is consistent with the final (post-resolution)
population. -/
theorem occupancy_update_placement (micap : ℚ) (gdraw : Pos → Bool) (kern : Kernel)
    (mv : List Individual → List Individual) (tau dim fleeRadius : ℕ)
    (σ : List (ℕ × Option ℕ) → List (ℕ × Option ℕ)) (rs : ResolveStreams) (s : SimState) :
    (preResolveState micap gdraw kern mv s).handlers
      = smoothedHandlers kern ((doHandlePhase (growthPhase micap gdraw s)).agents)
    ∧ simulateTimestep micap gdraw kern mv tau dim fleeRadius σ rs s
      = updateOccupancyStep kern
          (resolvePhase tau dim fleeRadius σ rs (preResolveState micap gdraw kern mv s))
    ∧ (simulateTimestep micap gdraw kern mv tau dim fleeRadius σ rs s).handlers
      = smoothedHandlers kern
          (simulateTimestep micap gdraw kern mv tau dim fleeRadius σ rs s).agents :=
  ⟨rfl, rfl, rfl⟩

/-- Claim C8: Reproduction is double-buffered: the fill loop writes only
the staging arrays (live population, live networks and fitness are
untouched), mutation rewrites only the staging networks, and the final
swap exchanges live and staging wholesale. Offspring slot `i` holds an
agent sprouted at the sampled ancestor position perturbed by the drawn
offset (each axis offset lying within `[-sprout_radius, sprout_radius]`)
and wrapped toroidally, and the new live network collection is the
mutation of the ancestor copies. -/
theorem create_new_generation_staging (dim sproutRadius : ℕ) (anc : ℕ → ℕ)
    (offRaw : ℕ → ℕ × ℕ) (mutF : List AnnState → List AnnState) (P : Population) :
    ((fillStage dim sproutRadius anc offRaw P).pop = P.pop
      ∧ (fillStage dim sproutRadius anc offRaw P).ann = P.ann
      ∧ (fillStage dim sproutRadius anc offRaw P).fitness = P.fitness)
    ∧ ((mutateStage mutF (fillStage dim sproutRadius anc offRaw P)).pop = P.pop
      ∧ (mutateStage mutF (fillStage dim sproutRadius anc offRaw P)).ann = P.ann)
    ∧ (∀ i, i < P.pop.length →
        (createNewGeneration dim sproutRadius anc offRaw mutF P).pop.getD i default
          = sprout
              (wrapCoord dim ((P.pop.getD (anc i % P.pop.length) default).pos
                + (offsetIn sproutRadius (offRaw i).1, offsetIn sproutRadius (offRaw i).2)))
              (anc i % P.pop.length))
    ∧ (createNewGeneration dim sproutRadius anc offRaw mutF P).ann
        = mutF ((List.range P.pop.length).map fun i => P.ann.getD (anc i % P.pop.length) [])
    ∧ (createNewGeneration dim sproutRadius anc offRaw mutF P).tmp_pop = P.pop
    ∧ (createNewGeneration dim sproutRadius anc offRaw mutF P).tmp_ann = P.ann
    ∧ (∀ r raw : ℕ, -(r : ℤ) ≤ offsetIn r raw ∧ offsetIn r raw ≤ r) := by
  refine ⟨⟨rfl, rfl, rfl⟩, ⟨rfl, rfl⟩, ?_, rfl, rfl, rfl, ?_⟩
  · intro i hi
    show ((List.range P.pop.length).map _).getD i default = _
    rw [List.getD_eq_getElem?_getD, List.getElem?_map, List.getElem?_range hi]
    rfl
  · intro r raw
    unfold offsetIn
    constructor
    · have h0 : (0 : ℤ) ≤ ((raw % (2 * r + 1) : ℕ) : ℤ) := Int.ofNat_nonneg _
      linarith
    · have h : raw % (2 * r + 1) < 2 * r + 1 := Nat.mod_lt _ (by omega)
      have h2 : ((raw % (2 * r + 1) : ℕ) : ℤ) ≤ 2 * r := by
        exact_mod_cast Nat.lt_succ_iff.mp h
      push_cast
      linarith

/-- Claim C8, witness: A one-individual population: offspring slot 0 is
sprouted from ancestor 0 at the wrapped perturbed position. -/
theorem create_new_generation_staging_witness :
    0 < onePop.pop.length
    ∧ (createNewGeneration 8 1 (fun _ => 0) (fun _ => (0, 0)) id onePop).pop.getD 0 default
      = sprout
          (wrapCoord 8 ((onePop.pop.getD (0 % onePop.pop.length) default).pos
            + (offsetIn 1 0, offsetIn 1 0)))
          (0 % onePop.pop.length) :=
  ⟨by decide,
    (create_new_generation_staging 8 1 (fun _ => 0) (fun _ => (0, 0)) id onePop).2.2.1 0
      (by decide)⟩

end Cine
